import Mathlib

/-!
Verification development for the `ts_hop_client` repository.

The repository relays SCiMMA Hopskotch heartbeat messages into a local
Kafka broker.  Two source files matter here:

* `make_avro_schema.py` — pure schema derivation for the heartbeat
  message shape (`make_avro_schema_heartbeat`,
  `make_avro_schema_heartbeat_message`, `_SCALAR_TYPE_DICT`);
* `hop_producer.py` — the `HopProducer` lifecycle controller
  (`__init__`, `start`, `_read_topic`, `close`, `done`).

The embedding below translates these directly.  Python dictionaries with
a known insertion order are modelled as association lists; Python
`float` values are modelled as rationals (the code only stores and
copies them, it never computes with them); machine-level concerns do not
arise.  The side effects of the lifecycle code (topic provisioning,
scheduling, publishing, closing streams, setting the completion future)
are modelled as an explicit trace of events emitted by each operation,
so that temporal claims become statements about those traces.
-/

/-- A non-list runtime value of a hop message payload.  `aOther` stands
for any Python value whose type is outside the fixed mapping
`_SCALAR_TYPE_DICT` and is not a top-level list: for example `None`, a
dict, bytes, or a list appearing as an element of another list (the
derivation only ever asks whether the type of such an element has a
mapping, and it never does).  Floats are modelled as rationals, see the
header comment. -/
inductive Atom where
  | aBool (b : Bool)
  | aInt (n : Int)
  | aFloat (q : Rat)
  | aStr (s : String)
  | aOther
  deriving DecidableEq

/-- A runtime value of a payload field: a non-list value, or a Python
list (whose elements are non-list values, see `Atom.aOther`). -/
inductive Value where
  | atom (a : Atom)
  | vList (xs : List Atom)
  deriving DecidableEq

/-- Shorthand for boolean payload values. -/
def Value.vBool (b : Bool) : Value := .atom (.aBool b)

/-- Shorthand for integer payload values. -/
def Value.vInt (n : Int) : Value := .atom (.aInt n)

/-- Shorthand for float payload values. -/
def Value.vFloat (q : Rat) : Value := .atom (.aFloat q)

/-- Shorthand for string payload values. -/
def Value.vStr (s : String) : Value := .atom (.aStr s)

/-- Shorthand for a payload value of an unmapped type. -/
def Value.vOther : Value := .atom .aOther

/-- The message payload: Python `message.content`, an insertion-ordered
mapping from field names to values. -/
abbrev Message := List (String × Value)

/-- Source `_SCALAR_TYPE_DICT`, applied to the Python type of a non-list
value.  A `none` result models a `KeyError` on lookup (the type has no
mapping). -/
def scalarTypeOfAtom : Atom → Option String
  | .aBool _ => some "boolean"
  | .aInt _ => some "long"
  | .aFloat _ => some "double"
  | .aStr _ => some "string"
  | .aOther => none

/-- Source `_SCALAR_TYPE_DICT`, applied to the Python type of an
arbitrary value: the type `list` itself has no mapping either. -/
def _SCALAR_TYPE_DICT : Value → Option String
  | .atom a => scalarTypeOfAtom a
  | .vList _ => none

/-- An Avro field type: either a scalar type name, or an array of a
scalar item type (source: `dict(type="array", items=avro_item_type)`). -/
inductive AvroType where
  | scalar (t : String)
  | array (items : String)
  deriving DecidableEq

/-- One entry of a schema `fields` list (source: the per-field `dict`
with keys `name`, `type`, optional `description`, `default`). -/
structure FieldEntry where
  name : String
  type : AvroType
  description : Option String
  default : Value
  deriving DecidableEq

/-- The Avro schema document built by both schema functions (source:
`dict(name=..., type="record", fields=...)`). -/
structure AvroSchema where
  name : String
  type : String
  fields : List FieldEntry
  deriving DecidableEq

/-- Errors the schema derivation can raise.  `unsupportedFieldType`
models the Python `KeyError` raised by `_SCALAR_TYPE_DICT[t]` when the
type `t` has no mapping (the spec calls this `UnsupportedFieldType`);
`indexError` models the Python `IndexError` raised by `field_data[0]`
when a field holds an empty list. -/
inductive SchemaError where
  | unsupportedFieldType
  | indexError
  deriving DecidableEq

/-- The three fixed leading fields shared verbatim by both schema
functions in `make_avro_schema.py`. -/
def heartbeatFixedFields : List FieldEntry :=
  [⟨"timestamp", .scalar "long", some "message timestamp", .vInt 0⟩,
   ⟨"count", .scalar "long", some "heartbeat count", .vInt 0⟩,
   ⟨"beat", .scalar "string", some "message content", .vStr "default beat content"⟩]

/-- Source `make_avro_schema_heartbeat()`: the static heartbeat topic
schema. -/
def make_avro_schema_heartbeat : AvroSchema :=
  ⟨"scimma.org.sys-heartbeat", "record", heartbeatFixedFields⟩

/-- The Avro type computed for one payload field value inside the loop
of `make_avro_schema_heartbeat_message`: a list uses the mapped type of
its first element as array item type, any other value uses its own
mapped scalar type. -/
def avroFieldType : Value → Except SchemaError AvroType
  | .vList [] => .error .indexError
  | .vList (x :: _) =>
    match scalarTypeOfAtom x with
    | some t => .ok (.array t)
    | none => .error .unsupportedFieldType
  | .atom a =>
    match scalarTypeOfAtom a with
    | some t => .ok (.scalar t)
    | none => .error .unsupportedFieldType

/-- The `for field_name, field_data in message.content.items()` loop of
`make_avro_schema_heartbeat_message`: one field entry per payload field,
in payload order, carrying the field value as the entry `default`; the
first failing field aborts the whole derivation. -/
def buildPayloadFields : Message → Except SchemaError (List FieldEntry)
  | [] => .ok []
  | (n, v) :: rest =>
    match avroFieldType v with
    | .error e => .error e
    | .ok t =>
      match buildPayloadFields rest with
      | .error e => .error e
      | .ok fs => .ok (⟨n, t, none, v⟩ :: fs)

/-- Source `make_avro_schema_heartbeat_message(message)`: the three
fixed fields followed by one entry per payload field, wrapped in a
record document with the fixed name. -/
def make_avro_schema_heartbeat_message (content : Message) :
    Except SchemaError AvroSchema :=
  match buildPayloadFields content with
  | .error e => .error e
  | .ok fs => .ok ⟨"scimma.org.sys-heartbeat", "record", heartbeatFixedFields ++ fs⟩

deriving instance DecidableEq for Except

/-- The schema derived from a message, with an arbitrary fallback in the
error case (only used under a hypothesis that derivation succeeds). -/
def schemaOf (m : Message) : AvroSchema :=
  match make_avro_schema_heartbeat_message m with
  | .ok s => s
  | .error _ => make_avro_schema_heartbeat

/-- Whether schema derivation succeeds on a message. -/
def deriveOk (m : Message) : Bool :=
  match make_avro_schema_heartbeat_message m with
  | .ok _ => true
  | .error _ => false

/-- A payload value whose runtime type is outside the fixed mapping:
either an unmapped scalar, or a list whose first element is unmapped.
An empty list is not of this kind (it fails differently). -/
def unmappedValue : Value → Bool
  | .vList [] => false
  | .vList (x :: _) => (scalarTypeOfAtom x).isNone
  | .atom a => (scalarTypeOfAtom a).isNone

/-- The Python float `1.5`, as an explicit rational (numerator 3,
denominator 2), written in normalized form so that equality tests on it
reduce. -/
def threeHalves : Rat := ⟨3, 2, by decide, by decide⟩

/-- The sample payload of the schema derivation example in the spec. -/
def samplePayload : Message :=
  [("timestamp", .vInt 5), ("count", .vInt 2),
   ("beat", .vStr "ok"), ("extra", .vFloat threeHalves)]

/-- The schema the source actually derives from `samplePayload`: the
three fixed fields followed by all four payload fields, duplicates
included — seven entries in total. -/
def samplePayloadSchema : AvroSchema :=
  ⟨"scimma.org.sys-heartbeat", "record",
   heartbeatFixedFields ++
   [⟨"timestamp", .scalar "long", none, .vInt 5⟩,
    ⟨"count", .scalar "long", none, .vInt 2⟩,
    ⟨"beat", .scalar "string", none, .vStr "ok"⟩,
    ⟨"extra", .scalar "double", none, .vFloat threeHalves⟩]⟩

/-- Errors raised by `hop_producer.py`.  `alreadyStarted` is the
`RuntimeError` raised by `start` when `kafka_producer` is already bound;
`notStarted` is the `RuntimeError` raised at the top of `_read_topic`
when `done_task` is already done; `attributeMissing` is the Python
`AttributeError` raised by `close` when `_read_topic_task` was never
assigned (only `start` assigns it); `schemaFailure` and
`upstreamFailure` are the exceptions caught by the `try` block of
`_read_topic` (upstream errors are identified by their message text). -/
inductive RelayError where
  | alreadyStarted
  | notStarted
  | attributeMissing
  | schemaFailure (e : SchemaError)
  | upstreamFailure (msg : String)
  deriving DecidableEq

/-- A terminal value of the completion future `done_task`: a result
(Python `None`, `True` or `False`) or an exception.  `result (some
true)` is set by `_read_topic` on clean stream end (the Completed
outcome); `result (some false)` is set by `close` as its defensive
fallback (the Cancelled outcome); `result none` models the `None` result
of the pre-`start` placeholder future. -/
inductive DoneOutcome where
  | result (b : Option Bool)
  | exception (e : RelayError)
  deriving DecidableEq

/-- The completion future `done_task`: pending, or finished with an
outcome.  The future transitions at most once from pending to finished.
-/
inductive DoneTask where
  | pending
  | fin (o : DoneOutcome)
  deriving DecidableEq

/-- Python `done_task.done()`. -/
def DoneTask.isDone : DoneTask → Bool
  | .pending => false
  | .fin _ => true

/-- Observable actions of the lifecycle code, in program order.
`provision` is `kafka_factory.make_kafka_topics`; `invokeStart` is the
`asyncio.ensure_future(self.start())` call of the constructor;
`makeProducer` is `kafka_factory.make_producer`; `scheduleReadTask` is
`run_in_executor(None, self._read_topic)`; `streamOpen`/`streamClose`
delimit the `with stream.open(...)` block; `readNext` is one message
delivered by the upstream iterator; `publish`/`ack` are the call of
`kafka_producer.send_and_wait` and its acknowledged return;
`streamRaise` is an exception raised by the upstream iterator;
`setDoneResult`/`setDoneException` are the writes to `done_task`;
`cancelReadTask`/`awaitReadTask` are the cancel and await of
`_read_topic_task` inside `close`; `logUnexpected` is the log call of
the bare `except` clause of `close`. -/
inductive Event where
  | provision (topics : List String)
  | invokeStart
  | makeProducer
  | scheduleReadTask
  | streamOpen
  | readNext (content : Message)
  | publish (topic : String) (value : AvroSchema)
  | ack
  | streamRaise (msg : String)
  | streamClose
  | setDoneResult (b : Option Bool)
  | setDoneException (e : RelayError)
  | cancelReadTask
  | awaitReadTask
  | logUnexpected
  deriving DecidableEq

/-- The mutable attributes of a `HopProducer` instance that the
lifecycle operations read or write (the logger and the auth object are
external I/O concerns and carry no lifecycle state). -/
structure HopState where
  rubinTopic : String
  scimmaHostname : String
  avroSchema : AvroSchema
  producerBound : Bool
  doneTask : DoneTask
  readTaskAssigned : Bool
  deriving DecidableEq

/-- Source `HopProducer.__init__`: stores the configuration, computes
`self.avro_schema = make_avro_schema_heartbeat()`, leaves
`kafka_producer = None`, provisions the Kafka topic named by the schema
via `make_kafka_topics`, schedules `self.start()` with `ensure_future`,
and sets `done_task` to an already-done placeholder future
(`utils.make_done_future`, whose result is `None`).  Returns the fresh
state and the ordered actions the constructor performs. -/
def HopProducer.init (rubinTopic scimmaHostname : String) : HopState × List Event :=
  (⟨rubinTopic, scimmaHostname, make_avro_schema_heartbeat, false,
    .fin (.result none), false⟩,
   [.provision [make_avro_schema_heartbeat.name], .invokeStart])

/-- Source `HopProducer.start`: raises `RuntimeError` if
`kafka_producer` is already bound (before any mutation); otherwise binds
the producer, replaces `done_task` by a fresh pending future, and
schedules `_read_topic` on an executor thread.  Returns the state after
the call, the actions performed, and the call result. -/
def HopProducer.start (st : HopState) : HopState × List Event × Except RelayError Unit :=
  if st.producerBound then (st, [], .error .alreadyStarted)
  else
    (⟨st.rubinTopic, st.scimmaHostname, st.avroSchema, true, .pending, true⟩,
     [.makeProducer, .scheduleReadTask], .ok ())

/-- How the upstream message sequence ends after delivering its
messages: the connection closes cleanly (the iterator is exhausted) or
the iterator raises a transport error. -/
inductive StreamEnd where
  | closed
  | errored (msg : String)
  deriving DecidableEq

/-- One behaviour of the upstream topic: the finite message sequence it
delivers and how it ends. -/
structure World where
  msgs : List Message
  ending : StreamEnd
  deriving DecidableEq

/-- The body of the `for message in s` loop of `_read_topic`: each
delivered message is read, its schema document is derived
(`make_avro_schema_heartbeat_message`) and published with
`send_and_wait(self.avro_schema["name"], value=avro_data)`, whose
acknowledged return is awaited before the next message is pulled.  A
derivation failure aborts the loop on the message that triggered it.
Returns the events of the loop and the schema error, if one occurred. -/
def relayLoop (topicName : String) : List Message → List Event × Option SchemaError
  | [] => ([], none)
  | m :: rest =>
    match make_avro_schema_heartbeat_message m with
    | .error e => ([.readNext m], some e)
    | .ok sch =>
      let r := relayLoop topicName rest
      (.readNext m :: .publish topicName sch :: .ack :: r.1, r.2)

/-- Source `HopProducer._read_topic`: raises `RuntimeError` if
`done_task` is already done; otherwise opens the upstream stream, runs
the relay loop, and funnels the terminal outcome into `done_task`: a
clean stream end sets the result `True`, any exception from the loop
body or the iterator is caught and set as the exception of `done_task`
(the `with` block closes the stream in both cases, before the handler
runs).  Returns the events, the final value of `done_task`, and the
exception escaping `_read_topic` itself, if any. -/
def readTopic (st : HopState) (w : World) : List Event × DoneTask × Option RelayError :=
  if st.doneTask.isDone then ([], st.doneTask, some .notStarted)
  else
    let r := relayLoop st.avroSchema.name w.msgs
    match r.2 with
    | some e =>
      (.streamOpen :: r.1 ++ [.streamClose, .setDoneException (.schemaFailure e)],
       .fin (.exception (.schemaFailure e)), none)
    | none =>
      match w.ending with
      | .closed =>
        (.streamOpen :: r.1 ++ [.streamClose, .setDoneResult (some true)],
         .fin (.result (some true)), none)
      | .errored msg =>
        (.streamOpen :: r.1 ++
           [.streamRaise msg, .streamClose, .setDoneException (.upstreamFailure msg)],
         .fin (.exception (.upstreamFailure msg)), none)

/-- The eventual outcome of `await self._read_topic_task` inside
`close`, for a read task that was not yet done: the await returns
normally, raises `asyncio.CancelledError`, or raises some other
exception.  (If the underlying thread is already running, the `cancel`
call does not interrupt it and the await returns only when the thread
function itself finishes.) -/
inductive AwaitResult where
  | normal
  | cancelled
  | raised (e : RelayError)
  deriving DecidableEq

/-- Source `HopProducer.close`: raises `AttributeError` if
`_read_topic_task` was never assigned; otherwise, if the read task is
not done, cancels it and awaits it, passing on `CancelledError` and
logging and swallowing any other exception; finally, if `done_task` is
still unset, sets its result to `False`.  Returns the events, the final
value of `done_task`, and the exception escaping `close` itself, if
any. -/
def closeFn (st : HopState) (readTaskDone : Bool) (res : AwaitResult) :
    List Event × DoneTask × Option RelayError :=
  if !st.readTaskAssigned then ([], st.doneTask, some .attributeMissing)
  else
    let tr1 : List Event :=
      if readTaskDone then []
      else
        .cancelReadTask :: .awaitReadTask ::
          (match res with
           | .normal => []
           | .cancelled => []
           | .raised _ => [.logUnexpected])
    if st.doneTask.isDone then (tr1, st.doneTask, none)
    else (tr1 ++ [.setDoneResult (some false)], .fin (.result (some false)), none)

/-- The state of a producer on which `start` has run once successfully:
construction followed by the scheduled `start` call. -/
def startedState (rubinTopic scimmaHostname : String) : HopState :=
  (HopProducer.start (HopProducer.init rubinTopic scimmaHostname).1).1

/-- The values handed to `send_and_wait`, in order of publication. -/
def publishedValues : List Event → List AvroSchema
  | [] => []
  | .publish _ v :: tl => v :: publishedValues tl
  | _ :: tl => publishedValues tl

/-- The topics handed to `send_and_wait`, in order of publication. -/
def publishTopics : List Event → List String
  | [] => []
  | .publish t _ :: tl => t :: publishTopics tl
  | _ :: tl => publishTopics tl

/-- The messages delivered by the upstream iterator, in delivery
order. -/
def readContents : List Event → List Message
  | [] => []
  | .readNext m :: tl => m :: readContents tl
  | _ :: tl => readContents tl

/-- The provisioning calls of a trace. -/
def provisionCalls : List Event → List (List String)
  | [] => []
  | .provision ts :: tl => ts :: provisionCalls tl
  | _ :: tl => provisionCalls tl

/-- Whether a trace keeps at most one publish in flight and never pulls
the next message while a publish is unacknowledged: the first argument
counts currently unacknowledged publishes. -/
def pacedAux : Nat → List Event → Bool
  | _, [] => true
  | k, .publish _ _ :: tl => k == 0 && pacedAux (k + 1) tl
  | k, .ack :: tl => k == 1 && pacedAux (k - 1) tl
  | k, .readNext _ :: tl => k == 0 && pacedAux k tl
  | k, _ :: tl => pacedAux k tl

/-- A trace is paced if, starting from no publish in flight, it keeps at
most one publish in flight and only pulls messages while none is in
flight. -/
def paced (tr : List Event) : Bool := pacedAux 0 tr

/-- The per-message events of the relay loop for a message sequence that
is handled without error: read, publish the derived schema document,
await the acknowledgment — then the same for the next message. -/
def relayBlocks (topicName : String) : List Message → List Event
  | [] => []
  | m :: rest =>
    .readNext m :: .publish topicName (schemaOf m) :: .ack ::
      relayBlocks topicName rest

/-- The pair of name and default value of a schema field entry. -/
def nameDefault (f : FieldEntry) : String × Value := (f.name, f.default)

theorem startedState_def (r h : String) :
    startedState r h = ⟨r, h, make_avro_schema_heartbeat, true, .pending, true⟩ := rfl

theorem schemaOf_eq (m : Message) (h : deriveOk m = true) :
    make_avro_schema_heartbeat_message m = .ok (schemaOf m) := by
  unfold deriveOk at h
  unfold schemaOf
  cases hm : make_avro_schema_heartbeat_message m with
  | error e => rw [hm] at h; simp at h
  | ok s => rfl

theorem buildPayloadFields_defaults :
    ∀ (content : Message) (fs : List FieldEntry),
      buildPayloadFields content = .ok fs → fs.map nameDefault = content
  | [], fs, h => by
    injection h with h
    subst h
    rfl
  | (n, v) :: rest, fs, h => by
    unfold buildPayloadFields at h
    cases ht : avroFieldType v with
    | error e => rw [ht] at h; simp at h
    | ok t =>
      rw [ht] at h
      cases hr : buildPayloadFields rest with
      | error e => rw [hr] at h; simp at h
      | ok fs2 =>
        rw [hr] at h
        injection h with h
        subst h
        simp only [List.map_cons, nameDefault]
        rw [buildPayloadFields_defaults rest fs2 hr]

theorem make_message_ok_shape (m : Message) (s : AvroSchema)
    (h : make_avro_schema_heartbeat_message m = .ok s) :
    s.name = "scimma.org.sys-heartbeat" ∧ s.type = "record" ∧
      s.fields.map nameDefault = heartbeatFixedFields.map nameDefault ++ m := by
  unfold make_avro_schema_heartbeat_message at h
  cases hb : buildPayloadFields m with
  | error e => rw [hb] at h; simp at h
  | ok fs =>
    rw [hb] at h
    injection h with h
    subst h
    refine ⟨rfl, rfl, ?_⟩
    simp only [List.map_append]
    rw [buildPayloadFields_defaults m fs hb]

theorem relayLoop_ok (tn : String) :
    ∀ msgs : List Message, msgs.all deriveOk = true →
      relayLoop tn msgs = (relayBlocks tn msgs, none)
  | [], _ => rfl
  | m :: rest, h => by
    simp only [List.all_cons, Bool.and_eq_true] at h
    have hm := schemaOf_eq m h.1
    simp only [relayLoop, hm, relayBlocks]
    rw [relayLoop_ok tn rest h.2]

theorem pacedAux_relayBlocks (tn : String) :
    ∀ (msgs : List Message) (tail : List Event),
      pacedAux 0 (relayBlocks tn msgs ++ tail) = pacedAux 0 tail
  | [], tail => rfl
  | m :: rest, tail => by
    simp only [relayBlocks, List.cons_append]
    simp [pacedAux]
    exact pacedAux_relayBlocks tn rest tail

theorem publishedValues_relayBlocks (tn : String) :
    ∀ (msgs : List Message) (tail : List Event),
      publishedValues (relayBlocks tn msgs ++ tail)
        = msgs.map schemaOf ++ publishedValues tail
  | [], tail => rfl
  | m :: rest, tail => by
    simp only [relayBlocks, List.cons_append, publishedValues, List.map_cons,
      List.append_eq]
    rw [publishedValues_relayBlocks tn rest tail]

theorem readContents_relayBlocks (tn : String) :
    ∀ (msgs : List Message) (tail : List Event),
      readContents (relayBlocks tn msgs ++ tail) = msgs ++ readContents tail
  | [], tail => rfl
  | m :: rest, tail => by
    simp only [relayBlocks, List.cons_append, readContents, List.append_eq]
    rw [readContents_relayBlocks tn rest tail]

theorem provisionCalls_relayLoop (tn : String) :
    ∀ msgs : List Message, provisionCalls (relayLoop tn msgs).1 = []
  | [] => rfl
  | m :: rest => by
    unfold relayLoop
    cases hm : make_avro_schema_heartbeat_message m with
    | error e => rfl
    | ok sch =>
      simp only [provisionCalls]
      exact provisionCalls_relayLoop tn rest

theorem publishTopics_relayLoop (tn : String) :
    ∀ msgs : List Message,
      (publishTopics (relayLoop tn msgs).1).all (fun t => decide (t = tn)) = true
  | [] => rfl
  | m :: rest => by
    unfold relayLoop
    cases hm : make_avro_schema_heartbeat_message m with
    | error e => rfl
    | ok sch =>
      simp only [publishTopics, List.all_cons, Bool.and_eq_true, decide_eq_true_eq]
      exact ⟨trivial, publishTopics_relayLoop tn rest⟩

theorem readTopic_started_closed (r h : String) (msgs : List Message)
    (hok : msgs.all deriveOk = true) :
    readTopic (startedState r h) ⟨msgs, .closed⟩
      = (.streamOpen :: (relayBlocks "scimma.org.sys-heartbeat" msgs
           ++ [.streamClose, .setDoneResult (some true)]),
         .fin (.result (some true)), none) := by
  unfold readTopic
  rw [startedState_def]
  simp only [DoneTask.isDone, Bool.false_eq_true, if_false]
  rw [relayLoop_ok _ msgs hok]
  rfl

theorem readTopic_started_errored (r h emsg : String) (msgs : List Message)
    (hok : msgs.all deriveOk = true) :
    readTopic (startedState r h) ⟨msgs, .errored emsg⟩
      = (.streamOpen :: (relayBlocks "scimma.org.sys-heartbeat" msgs
           ++ [.streamRaise emsg, .streamClose,
               .setDoneException (.upstreamFailure emsg)]),
         .fin (.exception (.upstreamFailure emsg)), none) := by
  unfold readTopic
  rw [startedState_def]
  simp only [DoneTask.isDone, Bool.false_eq_true, if_false]
  rw [relayLoop_ok _ msgs hok]
  rfl

theorem avroFieldType_unmapped :
    ∀ v : Value, unmappedValue v = true →
      avroFieldType v = .error .unsupportedFieldType
  | .atom a, h => by
    simp only [unmappedValue, Option.isNone_iff_eq_none] at h
    simp only [avroFieldType, h]
  | .vList [], h => by simp [unmappedValue] at h
  | .vList (x :: xs), h => by
    simp only [unmappedValue, Option.isNone_iff_eq_none] at h
    simp only [avroFieldType, h]

theorem avroFieldType_mapped :
    ∀ v : Value, unmappedValue v = false → v ≠ .vList [] →
      ∃ t, avroFieldType v = .ok t
  | .atom a, h, _ => by
    simp only [unmappedValue, Option.isNone_iff_eq_none] at h
    cases ha : scalarTypeOfAtom a with
    | none => rw [ha] at h; simp at h
    | some t => exact ⟨.scalar t, by simp only [avroFieldType, ha]⟩
  | .vList [], _, hne => absurd rfl hne
  | .vList (x :: xs), h, _ => by
    simp only [unmappedValue, Option.isNone_iff_eq_none] at h
    cases hx : scalarTypeOfAtom x with
    | none => rw [hx] at h; simp at h
    | some t => exact ⟨.array t, by simp only [avroFieldType, hx]⟩

theorem buildPayloadFields_unmapped :
    ∀ content : Message,
      content.any (fun p => unmappedValue p.2) = true →
      content.all (fun p => decide (p.2 ≠ Value.vList [])) = true →
      buildPayloadFields content = .error .unsupportedFieldType
  | [], hany, _ => by simp at hany
  | (n, v) :: rest, hany, hall => by
    simp only [List.any_cons, Bool.or_eq_true] at hany
    simp only [List.all_cons, Bool.and_eq_true, decide_eq_true_eq] at hall
    by_cases hv : unmappedValue v = true
    · simp only [buildPayloadFields, avroFieldType_unmapped v hv]
    · have hvf : unmappedValue v = false := by
        cases hu : unmappedValue v with
        | true => exact absurd hu hv
        | false => rfl
      obtain ⟨t, ht⟩ := avroFieldType_mapped v hvf hall.1
      have hrest := buildPayloadFields_unmapped rest
        (hany.resolve_left (by simpa using hv)) hall.2
      simp only [buildPayloadFields, ht, hrest]

/-- C3 counterexample: on the sample payload, the derived schema does
not have exactly the four fields [timestamp, count, beat, extra] — it
has seven, because the three fixed leading fields are prepended and the
payload fields of the same names are appended again afterwards, without
deduplication. -/
theorem sample_schema_seven_fields_counterexample :
    make_avro_schema_heartbeat_message samplePayload = .ok samplePayloadSchema
    ∧ samplePayloadSchema.fields.length = 7
    ∧ ¬ samplePayloadSchema.fields.length = 4 := by decide

/-- C3 amended: on the sample payload, schema derivation produces the
three fixed leading fields with their baked-in defaults (even though the
payload contains fields of the same names), followed by all four payload
fields in payload order — timestamp:long, count:long, beat:string,
extra:double, each carrying its payload value as default — for seven
entries in total, duplicates retained. -/
theorem sample_schema_derivation :
    make_avro_schema_heartbeat_message samplePayload = .ok samplePayloadSchema
    ∧ samplePayloadSchema.fields.take 3 = heartbeatFixedFields
    ∧ samplePayloadSchema.fields.drop 3
        = [⟨"timestamp", .scalar "long", none, .vInt 5⟩,
           ⟨"count", .scalar "long", none, .vInt 2⟩,
           ⟨"beat", .scalar "string", none, .vStr "ok"⟩,
           ⟨"extra", .scalar "double", none, .vFloat threeHalves⟩]
    ∧ samplePayloadSchema.fields.length = 7 := by decide

/-- C1 counterexample: for the single-message world delivering the
sample payload, the only record handed to `send_and_wait` is the derived
schema document itself — a record with name, type and a fields list —
not a flat field-name-to-value structure; every one of its entries named
timestamp carries either the baked-in default 0 or the source timestamp
5, and every name-to-default pair of the document is either a fixed
constant or a copied payload pair, so no local-clock receipt timestamp
distinct from the source timestamp is present anywhere in it. -/
theorem sent_record_counterexample :
    publishedValues (readTopic (startedState "rubin.testing-schema" "kafka.scimma.org")
        ⟨[samplePayload], .closed⟩).1 = [samplePayloadSchema]
    ∧ samplePayloadSchema.type = "record"
    ∧ samplePayloadSchema.fields.map nameDefault
        = [("timestamp", .vInt 0), ("count", .vInt 0),
           ("beat", .vStr "default beat content")] ++ samplePayload
    ∧ (samplePayloadSchema.fields.map nameDefault).all
        (fun p => decide (p.1 = "timestamp" →
          p.2 = Value.vInt 0 ∨ p.2 = Value.vInt 5)) = true := by decide

/-- C1 amended: for every error-free message sequence, the values handed
to `send_and_wait`, in order, are exactly the schema documents derived
from the messages; each such document is a record named
scimma.org.sys-heartbeat whose name-to-default pairs are the three fixed
constant pairs followed by the payload pairs of the message itself — the
payload values are copied into the entry defaults, and no further field
(in particular no local-clock timestamp) is added. -/
theorem sent_values_are_derived_schema_docs (r h : String) (msgs : List Message)
    (hok : msgs.all deriveOk = true) :
    publishedValues (readTopic (startedState r h) ⟨msgs, .closed⟩).1 = msgs.map schemaOf
    ∧ msgs.all (fun m => decide ((schemaOf m).name = "scimma.org.sys-heartbeat"
        ∧ (schemaOf m).type = "record"
        ∧ (schemaOf m).fields.map nameDefault
            = heartbeatFixedFields.map nameDefault ++ m)) = true := by
  have E := readTopic_started_closed r h msgs hok
  constructor
  · rw [E]
    simp [publishedValues, publishedValues_relayBlocks]
  · rw [List.all_eq_true]
    intro m hm
    rw [decide_eq_true_eq]
    have hd : deriveOk m = true := by
      rw [List.all_eq_true] at hok
      exact hok m hm
    exact make_message_ok_shape m (schemaOf m) (schemaOf_eq m hd)

/-- C1 amended, witness at the sample payload. -/
theorem sent_values_are_derived_schema_docs_witness :
    ([samplePayload] : List Message).all deriveOk = true
    ∧ (publishedValues (readTopic (startedState "rubin.testing-schema" "kafka.scimma.org")
         ⟨[samplePayload], .closed⟩).1 = [samplePayload].map schemaOf
       ∧ ([samplePayload] : List Message).all
           (fun m => decide ((schemaOf m).name = "scimma.org.sys-heartbeat"
             ∧ (schemaOf m).type = "record"
             ∧ (schemaOf m).fields.map nameDefault
                 = heartbeatFixedFields.map nameDefault ++ m)) = true) :=
  ⟨by decide,
   sent_values_are_derived_schema_docs "rubin.testing-schema" "kafka.scimma.org"
     [samplePayload] (by decide)⟩

/-- A second sample payload, containing a boolean field and an array
field. -/
def sampleListPayload : Message :=
  [("flag", .vBool true), ("vals", .vList [.aInt 1, .aInt 2])]

/-- A third sample payload. -/
def sampleBeatPayload : Message := [("beat", .vStr "x")]

/-- C2: for every message sequence delivered without errors, the
background loop trace is exactly a read, publish and acknowledgment
block per message, in delivery order, between the stream open and close;
hence exactly N publish calls occur for N messages, in the order the
messages were read, the trace is paced (at most one publish in flight,
and the next message is pulled only after the previous acknowledgment),
the completion future resolves to the Completed result `True`, and the
write of that result is the last action, after the Nth acknowledgment. -/
theorem relay_publishes_in_order (r h : String) (msgs : List Message)
    (hok : msgs.all deriveOk = true) :
    (readTopic (startedState r h) ⟨msgs, .closed⟩).1
        = .streamOpen :: (relayBlocks "scimma.org.sys-heartbeat" msgs
            ++ [.streamClose, .setDoneResult (some true)])
    ∧ publishedValues (readTopic (startedState r h) ⟨msgs, .closed⟩).1
        = msgs.map schemaOf
    ∧ (publishedValues (readTopic (startedState r h) ⟨msgs, .closed⟩).1).length
        = msgs.length
    ∧ readContents (readTopic (startedState r h) ⟨msgs, .closed⟩).1 = msgs
    ∧ paced (readTopic (startedState r h) ⟨msgs, .closed⟩).1 = true
    ∧ (readTopic (startedState r h) ⟨msgs, .closed⟩).2.1
        = .fin (.result (some true))
    ∧ (readTopic (startedState r h) ⟨msgs, .closed⟩).1.getLast?
        = some (.setDoneResult (some true)) := by
  have E := readTopic_started_closed r h msgs hok
  refine ⟨by rw [E], ?_, ?_, ?_, ?_, by rw [E], ?_⟩
  · rw [E]; simp [publishedValues, publishedValues_relayBlocks]
  · rw [E]; simp [publishedValues, publishedValues_relayBlocks]
  · rw [E]; simp [readContents, readContents_relayBlocks]
  · rw [E]; simp [paced, pacedAux, pacedAux_relayBlocks]
  · rw [E, ← List.cons_append, List.getLast?_append_cons]; rfl

/-- C2 witness at a two-message sequence. -/
theorem relay_publishes_in_order_witness :
    ([samplePayload, sampleListPayload] : List Message).all deriveOk = true
    ∧ ((readTopic (startedState "rubin.testing-schema" "kafka.scimma.org")
          ⟨[samplePayload, sampleListPayload], .closed⟩).1
        = .streamOpen :: (relayBlocks "scimma.org.sys-heartbeat"
            [samplePayload, sampleListPayload]
            ++ [.streamClose, .setDoneResult (some true)])
       ∧ publishedValues (readTopic (startedState "rubin.testing-schema" "kafka.scimma.org")
           ⟨[samplePayload, sampleListPayload], .closed⟩).1
           = ([samplePayload, sampleListPayload] : List Message).map schemaOf
       ∧ (publishedValues (readTopic (startedState "rubin.testing-schema" "kafka.scimma.org")
           ⟨[samplePayload, sampleListPayload], .closed⟩).1).length
           = ([samplePayload, sampleListPayload] : List Message).length
       ∧ readContents (readTopic (startedState "rubin.testing-schema" "kafka.scimma.org")
           ⟨[samplePayload, sampleListPayload], .closed⟩).1
           = [samplePayload, sampleListPayload]
       ∧ paced (readTopic (startedState "rubin.testing-schema" "kafka.scimma.org")
           ⟨[samplePayload, sampleListPayload], .closed⟩).1 = true
       ∧ (readTopic (startedState "rubin.testing-schema" "kafka.scimma.org")
           ⟨[samplePayload, sampleListPayload], .closed⟩).2.1
           = .fin (.result (some true))
       ∧ (readTopic (startedState "rubin.testing-schema" "kafka.scimma.org")
           ⟨[samplePayload, sampleListPayload], .closed⟩).1.getLast?
           = some (.setDoneResult (some true))) :=
  ⟨by decide,
   relay_publishes_in_order "rubin.testing-schema" "kafka.scimma.org"
     [samplePayload, sampleListPayload] (by decide)⟩

/-- C7: if the upstream sequence raises after delivering its messages,
the loop publishes exactly one record per delivered message, pulls no
further message, and the completion future resolves to the exception
carrying the originating upstream error — never to the Completed result.
-/
theorem upstream_error_stops_relay (r h emsg : String) (msgs : List Message)
    (hok : msgs.all deriveOk = true) :
    (readTopic (startedState r h) ⟨msgs, .errored emsg⟩).1
        = .streamOpen :: (relayBlocks "scimma.org.sys-heartbeat" msgs
            ++ [.streamRaise emsg, .streamClose,
                .setDoneException (.upstreamFailure emsg)])
    ∧ (publishedValues (readTopic (startedState r h) ⟨msgs, .errored emsg⟩).1).length
        = msgs.length
    ∧ readContents (readTopic (startedState r h) ⟨msgs, .errored emsg⟩).1 = msgs
    ∧ (readTopic (startedState r h) ⟨msgs, .errored emsg⟩).2.1
        = .fin (.exception (.upstreamFailure emsg))
    ∧ ¬ (readTopic (startedState r h) ⟨msgs, .errored emsg⟩).2.1
        = .fin (.result (some true)) := by
  have E := readTopic_started_errored r h emsg msgs hok
  refine ⟨by rw [E], ?_, ?_, by rw [E], ?_⟩
  · rw [E]; simp [publishedValues, publishedValues_relayBlocks]
  · rw [E]; simp [readContents, readContents_relayBlocks]
  · rw [E]; simp

/-- C7 witness: the upstream raises after delivering three messages;
exactly three publishes occur. -/
theorem upstream_error_stops_relay_witness :
    ([samplePayload, sampleListPayload, sampleBeatPayload] : List Message).all deriveOk
        = true
    ∧ ((readTopic (startedState "rubin.testing-schema" "kafka.scimma.org")
          ⟨[samplePayload, sampleListPayload, sampleBeatPayload], .errored "broken pipe"⟩).1
        = .streamOpen :: (relayBlocks "scimma.org.sys-heartbeat"
            [samplePayload, sampleListPayload, sampleBeatPayload]
            ++ [.streamRaise "broken pipe", .streamClose,
                .setDoneException (.upstreamFailure "broken pipe")])
       ∧ (publishedValues (readTopic (startedState "rubin.testing-schema" "kafka.scimma.org")
           ⟨[samplePayload, sampleListPayload, sampleBeatPayload], .errored "broken pipe"⟩).1).length
           = ([samplePayload, sampleListPayload, sampleBeatPayload] : List Message).length
       ∧ readContents (readTopic (startedState "rubin.testing-schema" "kafka.scimma.org")
           ⟨[samplePayload, sampleListPayload, sampleBeatPayload], .errored "broken pipe"⟩).1
           = [samplePayload, sampleListPayload, sampleBeatPayload]
       ∧ (readTopic (startedState "rubin.testing-schema" "kafka.scimma.org")
           ⟨[samplePayload, sampleListPayload, sampleBeatPayload], .errored "broken pipe"⟩).2.1
           = .fin (.exception (.upstreamFailure "broken pipe"))
       ∧ ¬ (readTopic (startedState "rubin.testing-schema" "kafka.scimma.org")
           ⟨[samplePayload, sampleListPayload, sampleBeatPayload], .errored "broken pipe"⟩).2.1
           = .fin (.result (some true))) :=
  ⟨by decide,
   upstream_error_stops_relay "rubin.testing-schema" "kafka.scimma.org" "broken pipe"
     [samplePayload, sampleListPayload, sampleBeatPayload] (by decide)⟩

/-- C8: a freshly constructed producer has no bound Kafka producer; the
first `start` call succeeds and leaves the controller running (producer
bound, completion future pending, read task scheduled); and a `start`
call on any state whose producer is already bound raises the
already-started error before performing any action or mutation, leaving
the state unchanged — in particular a second call after a successful
first one. -/
theorem start_transitions_once (r h : String) (st : HopState)
    (hb : st.producerBound = true) :
    (HopProducer.init r h).1.producerBound = false
    ∧ (HopProducer.start (HopProducer.init r h).1).2.2 = .ok ()
    ∧ (startedState r h).producerBound = true
    ∧ (startedState r h).doneTask = .pending
    ∧ (startedState r h).readTaskAssigned = true
    ∧ HopProducer.start st = (st, [], .error .alreadyStarted) := by
  refine ⟨rfl, rfl, rfl, rfl, rfl, ?_⟩
  simp only [HopProducer.start, hb, if_true]

/-- C8 witness: the second call on the canonical started instance. -/
theorem start_transitions_once_witness :
    (startedState "rubin.testing-schema" "kafka.scimma.org").producerBound = true
    ∧ ((HopProducer.init "rubin.testing-schema" "kafka.scimma.org").1.producerBound = false
       ∧ (HopProducer.start (HopProducer.init "rubin.testing-schema" "kafka.scimma.org").1).2.2
           = .ok ()
       ∧ (startedState "rubin.testing-schema" "kafka.scimma.org").producerBound = true
       ∧ (startedState "rubin.testing-schema" "kafka.scimma.org").doneTask = .pending
       ∧ (startedState "rubin.testing-schema" "kafka.scimma.org").readTaskAssigned = true
       ∧ HopProducer.start (startedState "rubin.testing-schema" "kafka.scimma.org")
           = (startedState "rubin.testing-schema" "kafka.scimma.org", [],
              .error .alreadyStarted)) :=
  ⟨by decide,
   start_transitions_once "rubin.testing-schema" "kafka.scimma.org"
     (startedState "rubin.testing-schema" "kafka.scimma.org") (by decide)⟩

/-- C4 counterexample: the constructor itself emits the topic
provisioning call, as its first action, before the `start` invocation it
schedules, and at a point where no `start` has executed (the producer is
unbound and the read task unassigned) — so provisioning does happen
before `start` is invoked, refuting the second half of the claim. -/
theorem provision_before_start_counterexample :
    (HopProducer.init "rubin.testing-schema" "kafka.scimma.org").2
        = [.provision ["scimma.org.sys-heartbeat"], .invokeStart]
    ∧ (HopProducer.init "rubin.testing-schema" "kafka.scimma.org").1.producerBound = false
    ∧ (HopProducer.init "rubin.testing-schema" "kafka.scimma.org").1.readTaskAssigned
        = false := by decide

/-- C4 amended: the downstream topic is provisioned exactly once per
producer instance, by the constructor (before the `start` invocation the
constructor schedules); neither `start` nor the background loop nor
`close` ever provisions a topic. -/
theorem provisionCalls_append :
    ∀ a b : List Event, provisionCalls (a ++ b) = provisionCalls a ++ provisionCalls b
  | [], b => rfl
  | .provision ts :: tl, b => by
    simp only [List.cons_append, provisionCalls, List.append_eq]
    rw [provisionCalls_append tl b]
  | .invokeStart :: tl, b => by
    simp only [List.cons_append, provisionCalls, List.append_eq]
    exact provisionCalls_append tl b
  | .makeProducer :: tl, b => by
    simp only [List.cons_append, provisionCalls, List.append_eq]
    exact provisionCalls_append tl b
  | .scheduleReadTask :: tl, b => by
    simp only [List.cons_append, provisionCalls, List.append_eq]
    exact provisionCalls_append tl b
  | .streamOpen :: tl, b => by
    simp only [List.cons_append, provisionCalls, List.append_eq]
    exact provisionCalls_append tl b
  | .readNext m :: tl, b => by
    simp only [List.cons_append, provisionCalls, List.append_eq]
    exact provisionCalls_append tl b
  | .publish t v :: tl, b => by
    simp only [List.cons_append, provisionCalls, List.append_eq]
    exact provisionCalls_append tl b
  | .ack :: tl, b => by
    simp only [List.cons_append, provisionCalls, List.append_eq]
    exact provisionCalls_append tl b
  | .streamRaise m :: tl, b => by
    simp only [List.cons_append, provisionCalls, List.append_eq]
    exact provisionCalls_append tl b
  | .streamClose :: tl, b => by
    simp only [List.cons_append, provisionCalls, List.append_eq]
    exact provisionCalls_append tl b
  | .setDoneResult x :: tl, b => by
    simp only [List.cons_append, provisionCalls, List.append_eq]
    exact provisionCalls_append tl b
  | .setDoneException e :: tl, b => by
    simp only [List.cons_append, provisionCalls, List.append_eq]
    exact provisionCalls_append tl b
  | .cancelReadTask :: tl, b => by
    simp only [List.cons_append, provisionCalls, List.append_eq]
    exact provisionCalls_append tl b
  | .awaitReadTask :: tl, b => by
    simp only [List.cons_append, provisionCalls, List.append_eq]
    exact provisionCalls_append tl b
  | .logUnexpected :: tl, b => by
    simp only [List.cons_append, provisionCalls, List.append_eq]
    exact provisionCalls_append tl b

theorem provision_once_in_constructor (r h : String) (st : HopState) (b : Bool)
    (res : AwaitResult) (w : World) :
    provisionCalls (HopProducer.init r h).2 = [["scimma.org.sys-heartbeat"]]
    ∧ (HopProducer.init r h).2 = [.provision ["scimma.org.sys-heartbeat"], .invokeStart]
    ∧ provisionCalls (HopProducer.start st).2.1 = []
    ∧ provisionCalls (readTopic st w).1 = []
    ∧ provisionCalls (closeFn st b res).1 = [] := by
  refine ⟨rfl, rfl, ?_, ?_, ?_⟩
  · unfold HopProducer.start
    by_cases hb : st.producerBound
    · simp [hb, provisionCalls]
    · simp [hb, provisionCalls]
  · unfold readTopic
    by_cases hd : st.doneTask.isDone
    · simp [hd, provisionCalls]
    · simp only [hd, Bool.false_eq_true, if_false]
      have hp := provisionCalls_relayLoop st.avroSchema.name w.msgs
      cases he : (relayLoop st.avroSchema.name w.msgs).2 with
      | some e =>
        simp only [he, provisionCalls, List.append_eq]
        rw [provisionCalls_append]
        simp [hp, provisionCalls]
      | none =>
        cases w.ending with
        | closed =>
          simp only [he, provisionCalls, List.append_eq]
          rw [provisionCalls_append]
          simp [hp, provisionCalls]
        | errored msg =>
          simp only [he, provisionCalls, List.append_eq]
          rw [provisionCalls_append]
          simp [hp, provisionCalls]
  · unfold closeFn
    by_cases ha : st.readTaskAssigned
    · simp only [ha, Bool.not_true, Bool.false_eq_true, if_false]
      by_cases hd : st.doneTask.isDone
      · simp only [hd, if_true]
        cases b with
        | true => rfl
        | false => cases res <;> rfl
      · simp only [hd, Bool.false_eq_true, if_false]
        cases b with
        | true => rfl
        | false => cases res <;> rfl
    · simp [ha, provisionCalls]

/-- C5 (code bug): the only actions `close` can ever perform are
cancelling the wrapper future of the read task, awaiting it, logging an
unexpected error, and setting the fallback result of the completion
future — in particular, `close` never emits a close call on the upstream
stream connection (the `streamClose` action), on any input, contradicting
the requirement that the upstream connection observably receive a close
call exactly once so that a blocked read unblocks.  (The cancel call
targets the asyncio wrapper of an executor thread, which cannot
interrupt the thread once it runs; the stream is closed only by the
`with` block inside the thread itself, when the loop ends on its own.) -/
theorem close_never_closes_upstream (st : HopState) (b : Bool) (res : AwaitResult) :
    ((closeFn st b res).1.filter (fun e => decide (e = Event.streamClose))).length = 0
    ∧ (closeFn st b res).1.all (fun e =>
        decide (e = Event.cancelReadTask ∨ e = Event.awaitReadTask
          ∨ e = Event.logUnexpected ∨ e = Event.setDoneResult (some false))) = true := by
  unfold closeFn
  cases ha : st.readTaskAssigned with
  | false => simp [ha]
  | true =>
    simp only [ha, Bool.not_true, Bool.false_eq_true, if_false]
    cases hd : st.doneTask.isDone with
    | true =>
      simp only [hd, if_true]
      cases b <;> cases res <;> simp [List.filter]
    | false =>
      simp only [hd, Bool.false_eq_true, if_false]
      cases b <;> cases res <;> simp [List.filter]

/-- C6 counterexample: on a constructed producer on which `start` has
not yet executed (so `_read_topic_task` was never assigned), `close`
raises an attribute error instead of returning normally, refuting the
claim that `close` always returns normally. -/
theorem close_before_start_counterexample :
    closeFn (HopProducer.init "rubin.testing-schema" "kafka.scimma.org").1 false .normal
      = ([], .fin (.result none), some .attributeMissing) := by decide

/-- C6 amended: once `start` has run (so the read-task attribute
exists), `close` always returns normally — the cancellation error class
is passed on silently and any other error from awaiting the cancelled
task is logged and swallowed — and when it returns the completion future
holds a value: unchanged if the loop had already set one, and otherwise
the fallback result `False` (the Cancelled outcome). -/
theorem close_swallows_errors_and_sets_done (st : HopState) (b : Bool)
    (res : AwaitResult) (hr : st.readTaskAssigned = true) :
    (closeFn st b res).2.2 = none
    ∧ ((closeFn st b res).2.1).isDone = true
    ∧ (closeFn st b res).2.1
        = (if st.doneTask.isDone then st.doneTask else .fin (.result (some false))) := by
  unfold closeFn
  simp only [hr, Bool.not_true, Bool.false_eq_true, if_false]
  cases hd : st.doneTask.isDone with
  | true => simp [hd]
  | false => simp [hd, DoneTask.isDone]

/-- C6 amended, witness on the canonical started instance with a
cancelled await. -/
theorem close_swallows_errors_and_sets_done_witness :
    (startedState "rubin.testing-schema" "kafka.scimma.org").readTaskAssigned = true
    ∧ ((closeFn (startedState "rubin.testing-schema" "kafka.scimma.org") false .cancelled).2.2
         = none
       ∧ ((closeFn (startedState "rubin.testing-schema" "kafka.scimma.org")
            false .cancelled).2.1).isDone = true
       ∧ (closeFn (startedState "rubin.testing-schema" "kafka.scimma.org")
            false .cancelled).2.1
           = (if (startedState "rubin.testing-schema" "kafka.scimma.org").doneTask.isDone
              then (startedState "rubin.testing-schema" "kafka.scimma.org").doneTask
              else .fin (.result (some false)))) :=
  ⟨by decide,
   close_swallows_errors_and_sets_done
     (startedState "rubin.testing-schema" "kafka.scimma.org") false .cancelled (by decide)⟩

theorem publishTopics_append (a b : List Event) :
    publishTopics (a ++ b) = publishTopics a ++ publishTopics b := by
  induction a with
  | nil => rfl
  | cons e tl ih => cases e <;> simp [publishTopics, ih]

theorem publishTopics_readTopic (st : HopState) (w : World) :
    (publishTopics (readTopic st w).1).all
      (fun t => decide (t = st.avroSchema.name)) = true := by
  unfold readTopic
  cases hd : st.doneTask.isDone with
  | true => simp [publishTopics]
  | false =>
    simp only [Bool.false_eq_true, if_false]
    have hp := publishTopics_relayLoop st.avroSchema.name w.msgs
    cases he : (relayLoop st.avroSchema.name w.msgs).2 with
    | some e =>
      simp only [publishTopics, List.append_eq, publishTopics_append,
        List.all_append, Bool.and_eq_true]
      exact ⟨hp, rfl⟩
    | none =>
      cases w.ending with
      | closed =>
        simp only [publishTopics, List.append_eq, publishTopics_append,
          List.all_append, Bool.and_eq_true]
        exact ⟨hp, rfl⟩
      | errored msg =>
        simp only [publishTopics, List.append_eq, publishTopics_append,
          List.all_append, Bool.and_eq_true]
        exact ⟨hp, rfl⟩

/-- C9 counterexample: a payload holding a field of unmapped type can
fail with the index error instead of the unsupported-field-type error,
when an earlier field holds an empty list: the subscript of the first
element of the empty list fails before the type lookup of the unmapped
field is reached.  So derivation does not fail with the
unsupported-field-type error on every payload containing an unmapped
field. -/
theorem unsupported_preempted_counterexample :
    unmappedValue Value.vOther = true
    ∧ make_avro_schema_heartbeat_message [("a", .vList []), ("b", .vOther)]
        = .error .indexError
    ∧ ¬ make_avro_schema_heartbeat_message [("a", .vList []), ("b", .vOther)]
        = .error .unsupportedFieldType := by decide

/-- C9 amended: schema derivation fails with the unsupported-field-type
error (the key lookup failure) whenever some field of the payload holds
a value whose runtime type is outside the fixed mapping — an unmapped
scalar, or a list whose first element is unmapped — provided no field of
the payload holds an empty list (an empty list fails first, with an
index error, if it precedes the unmapped field). -/
theorem unmapped_field_fails_derivation (content : Message)
    (hany : content.any (fun p => unmappedValue p.2) = true)
    (hall : content.all (fun p => decide (p.2 ≠ Value.vList [])) = true) :
    make_avro_schema_heartbeat_message content = .error .unsupportedFieldType := by
  unfold make_avro_schema_heartbeat_message
  rw [buildPayloadFields_unmapped content hany hall]

/-- C9 amended, witness: an unmapped scalar field and a list field whose
first element is unmapped. -/
theorem unmapped_field_fails_derivation_witness :
    ([("b", Value.vOther), ("xs", Value.vList [.aOther])] : Message).any
        (fun p => unmappedValue p.2) = true
    ∧ ([("b", Value.vOther), ("xs", Value.vList [.aOther])] : Message).all
        (fun p => decide (p.2 ≠ Value.vList [])) = true
    ∧ make_avro_schema_heartbeat_message [("b", Value.vOther), ("xs", Value.vList [.aOther])]
        = .error .unsupportedFieldType :=
  ⟨by decide, by decide,
   unmapped_field_fails_derivation [("b", Value.vOther), ("xs", Value.vList [.aOther])]
     (by decide) (by decide)⟩

/-- C10: the static schema and every successfully derived message schema
carry the constant name scimma.org.sys-heartbeat; the constructor
provisions exactly that topic name; every publish of the background loop
targets exactly that topic name; and the rubin topic constructor
parameter affects neither the constructor actions nor the behaviour of
the background loop. -/
theorem fixed_topic_everywhere (r1 r2 h : String) (m : Message) (s : AvroSchema)
    (w : World) (hs : make_avro_schema_heartbeat_message m = .ok s) :
    make_avro_schema_heartbeat.name = "scimma.org.sys-heartbeat"
    ∧ s.name = "scimma.org.sys-heartbeat"
    ∧ (HopProducer.init r1 h).2
        = [.provision ["scimma.org.sys-heartbeat"], .invokeStart]
    ∧ (publishTopics (readTopic (startedState r1 h) w).1).all
        (fun t => decide (t = "scimma.org.sys-heartbeat")) = true
    ∧ (HopProducer.init r1 h).2 = (HopProducer.init r2 h).2
    ∧ readTopic (startedState r1 h) w = readTopic (startedState r2 h) w :=
  ⟨rfl, (make_message_ok_shape m s hs).1, rfl,
   publishTopics_readTopic (startedState r1 h) w, rfl, rfl⟩

/-- C10 witness at the sample payload and a one-message world, with two
different rubin topic parameters. -/
theorem fixed_topic_everywhere_witness :
    make_avro_schema_heartbeat_message samplePayload = .ok samplePayloadSchema
    ∧ (make_avro_schema_heartbeat.name = "scimma.org.sys-heartbeat"
       ∧ samplePayloadSchema.name = "scimma.org.sys-heartbeat"
       ∧ (HopProducer.init "rubin.testing-schema" "kafka.scimma.org").2
           = [.provision ["scimma.org.sys-heartbeat"], .invokeStart]
       ∧ (publishTopics (readTopic (startedState "rubin.testing-schema" "kafka.scimma.org")
            ⟨[samplePayload], .closed⟩).1).all
           (fun t => decide (t = "scimma.org.sys-heartbeat")) = true
       ∧ (HopProducer.init "rubin.testing-schema" "kafka.scimma.org").2
           = (HopProducer.init "rubin.other-topic" "kafka.scimma.org").2
       ∧ readTopic (startedState "rubin.testing-schema" "kafka.scimma.org")
             ⟨[samplePayload], .closed⟩
           = readTopic (startedState "rubin.other-topic" "kafka.scimma.org")
             ⟨[samplePayload], .closed⟩) :=
  ⟨by decide,
   fixed_topic_everywhere "rubin.testing-schema" "rubin.other-topic" "kafka.scimma.org"
     samplePayload samplePayloadSchema ⟨[samplePayload], .closed⟩ (by decide)⟩
